import Mathlib

/-!
Shallow embedding of the ToolJet real-time collaboration replication layer:
the Redis-backed publish/subscribe registry (`src/server/src/helpers/redis.ts`,
classes `RedisInstance` and `RedisPubSub` and the factory `createRedisInstance`)
and the WebSocket session gateway (`YjsGateway`: `getCookie` and `authenticate`).

State-carrying JavaScript objects become explicit state records; every method
becomes a function from the state to a new state together with the list of
observable bus effects it performs, and an `Except JsError` result capturing
JavaScript exceptions (a thrown `Error`, or the `TypeError` raised by
dereferencing `null`/`undefined`).
-/

namespace ToolJet

/-! JavaScript string primitives used by the source. -/

/-- Whitespace class of the JavaScript regular-expression escape `\s`
(restricted to the ASCII range; only the plain space occurs in headers here). -/
def isJsWs (c : Char) : Bool :=
  c = ' ' || c = '\t' || c = '\n' || c = '\r' || c = '\x0b' || c = '\x0c'

/-- Boolean test that `pat` is a prefix of `s` (character lists). -/
def startsWithL (s pat : List Char) : Bool :=
  match s, pat with
  | _, [] => true
  | [], _ :: _ => false
  | c :: cs, p :: ps => c = p && startsWithL cs ps

/-- Boolean test that `pat` occurs as a contiguous substring of `s`,
the semantics of JavaScript `String.prototype.includes`. -/
def hasSubstr (pat : List Char) : List Char → Bool
  | [] => pat.isEmpty
  | c :: cs => startsWithL (c :: cs) pat || hasSubstr pat cs

/-- Remove the first occurrence of `pat` from `s`: the semantics of
JavaScript `s.replace(pat, '')` with a string pattern (first match only). -/
def replaceFirstL (pat : List Char) : List Char → List Char
  | [] => []
  | c :: cs =>
    if startsWithL (c :: cs) pat then
      match pat with
      | [] => c :: cs
      | _ :: ps => List.drop ps.length cs
    else c :: replaceFirstL pat cs

/-- String wrapper for `channel.includes(pat)`. -/
def jsIncludes (s pat : String) : Bool := hasSubstr pat.data s.data

/-- String wrapper for `channel.replace(pat, '')`. -/
def jsReplaceFirst (s pat : String) : String := String.mk (replaceFirstL pat.data s.data)

/-! The cookie-extraction regular expression of `YjsGateway.getCookie`:
the source builds the pattern `;\s*NAME=([^;]+)` (with the cookie name
interpolated literally; the names used, `auth_token` and `app_id`, contain
no regex metacharacters) and matches it against `"; " + cookie`.
The functions below implement exactly this pattern's leftmost-match,
greedy-with-backtracking semantics on character lists. -/

/-- Capture of `[^;]+` when followed by end-of-pattern: the maximal run of
characters up to (excluding) the next `;` or the end of the string. -/
def captureVal : List Char → List Char
  | [] => []
  | c :: cs => if c = ';' then [] else c :: captureVal cs

/-- Match `NAME=([^;]+)` at the head of `s`: consume the literal `key`,
then `=`, then a nonempty capture. -/
def matchKeyEq (key : List Char) (s : List Char) : Option (List Char) :=
  match key, s with
  | [], c :: rest =>
    if c = '=' then
      let v := captureVal rest
      if v.isEmpty then none else some v
    else none
  | [], [] => none
  | k :: ks, c :: cs => if c = k then matchKeyEq ks cs else none
  | _ :: _, [] => none

/-- Match `\s*NAME=([^;]+)` at the head of `s`: greedily consume whitespace,
backtracking one character at a time when the remainder fails to match. -/
def matchWsKey (key : List Char) : List Char → Option (List Char)
  | [] => matchKeyEq key []
  | c :: cs =>
    if isJsWs c then
      match matchWsKey key cs with
      | some v => some v
      | none => matchKeyEq key (c :: cs)
    else matchKeyEq key (c :: cs)

/-- Scan for the leftmost match of `;\s*NAME=([^;]+)` in `s`. -/
def scanCookieL (key : List Char) : List Char → Option (List Char)
  | [] => none
  | c :: cs =>
    if c = ';' then
      match matchWsKey key cs with
      | some v => some v
      | none => scanCookieL key cs
    else scanCookieL key cs

/-! Data model of the replication layer. -/

/-- Abstraction of a `Y.Doc` as the registry sees it: `clientsSize` embeds
`doc.store.clients.size`, and `state` the opaque byte content returned by
`Y.encodeStateAsUpdate(doc)`. -/
structure YDoc where
  clientsSize : Nat
  state : List Nat
deriving DecidableEq, Repr

/-- The data fields of a `RedisInstance` binding (class `RedisInstance`):
its document name, the derived awareness channel name, and its document. -/
structure RedisInstance where
  name : String
  awarenessChannel : String
  doc : YDoc
deriving DecidableEq, Repr

/-- Mutable state of a `RedisPubSub` object: the `docs` map (an insertion
ordered association list, faithful to a JavaScript `Map`), and the two
ioredis connections, where `none` embeds the `null` they are set to by
`destroy()` and `some ()` a live connection object. -/
structure RedisPubSub where
  docs : List (String × RedisInstance)
  publisher : Option Unit
  subscriber : Option Unit
deriving DecidableEq, Repr

/-- Observable effects on the message bus, the documents, and the
connections. -/
inductive Effect where
  | publish (channel : String) (payload : List Nat)
  | subscribe (channels : List String)
  | unsubscribe (channels : List String)
  | docOn (name : String)
  | docOff (name : String)
  | applyUpdate (name : String) (message : String)
  | applyAwareness (name : String) (message : String)
  | quitPublisher
  | quitSubscriber
deriving DecidableEq, Repr

/-- JavaScript exceptions the embedded code can throw: `typeError` for a
property access on `null`/`undefined`, and `alreadyBound name` for the
`Error` thrown by `bindState` (message: the name, quoted, followed by
" is already bound to this RedisPubSub instance"). -/
inductive JsError where
  | typeError
  | alreadyBound (name : String)
deriving DecidableEq, Repr

/-- Semantics of `Map.prototype.has` on the embedded `docs` map. -/
def mapHas (m : List (String × RedisInstance)) (k : String) : Bool :=
  m.any (fun p => p.1 = k)

/-- Semantics of `Map.prototype.get` on the embedded `docs` map. -/
def mapGet (m : List (String × RedisInstance)) (k : String) : Option RedisInstance :=
  (m.find? (fun p => p.1 = k)).map (fun p => p.2)

/-- Semantics of `Map.prototype.delete` on the embedded `docs` map
(keys are unique, so filtering removes exactly the named entry). -/
def mapDelete (m : List (String × RedisInstance)) (k : String) :
    List (String × RedisInstance) :=
  m.filter (fun p => !(p.1 = k))

/-- Embedding of `Y.encodeStateAsUpdate(doc)`. -/
def encodeStateAsUpdate (doc : YDoc) : List Nat := doc.state

/-- Embedding of `RedisInstance.updateHandler`: publish the update on the
document channel through `this.rps.publisher`; dereferencing a `null`
publisher (after `destroy()`) throws a `TypeError`. -/
def updateHandler (rps : RedisPubSub) (inst : RedisInstance) (update : List Nat) :
    Except JsError (List Effect) :=
  match rps.publisher with
  | none => .error .typeError
  | some _ => .ok [.publish inst.name update]

/-- Embedding of `RedisInstance.updateAwarenessHandler`: publish on the
awareness channel through `this.rps.publisher`. -/
def updateAwarenessHandler (rps : RedisPubSub) (inst : RedisInstance) (update : List Nat) :
    Except JsError (List Effect) :=
  match rps.publisher with
  | none => .error .typeError
  | some _ => .ok [.publish inst.awarenessChannel update]

/-- Embedding of the `RedisInstance` constructor: build the binding with
awareness channel `name + "-awareness"`; if the document store is nonempty,
immediately publish its full encoded state through `updateHandler`; then
register the document update listener and subscribe both channels.
Returns the effects performed before any thrown exception. -/
def newRedisInstance (rps : RedisPubSub) (name : String) (doc : YDoc) :
    List Effect × Except JsError RedisInstance :=
  let inst : RedisInstance :=
    { name := name, awarenessChannel := name ++ "-awareness", doc := doc }
  let initStep : Except JsError (List Effect) :=
    if doc.clientsSize > 0 then updateHandler rps inst (encodeStateAsUpdate doc)
    else .ok []
  match initStep with
  | .error e => ([], .error e)
  | .ok initEffs =>
    match rps.subscriber with
    | none => (initEffs ++ [.docOn name], .error .typeError)
    | some _ =>
      (initEffs ++ [.docOn name, .subscribe [name, inst.awarenessChannel]], .ok inst)

/-- Embedding of `RedisPubSub.bindState`: throw `alreadyBound` when the name
is already in the registry, else construct the `RedisInstance` and append it
to the `docs` map. -/
def bindState (rps : RedisPubSub) (name : String) (ydoc : YDoc) :
    RedisPubSub × List Effect × Except JsError RedisInstance :=
  if mapHas rps.docs name then
    (rps, [], .error (.alreadyBound name))
  else
    match newRedisInstance rps name ydoc with
    | (effs, .error e) => (rps, effs, .error e)
    | (effs, .ok inst) => ({ rps with docs := rps.docs ++ [(name, inst)] }, effs, .ok inst)

/-- Embedding of the subscriber `message` handler installed by the
`RedisPubSub` constructor (the Channel Router). On an awareness channel the
source dereferences `pdoc.doc` without a guard, so a missing binding throws
a `TypeError`; on a document channel a missing binding triggers an
unsubscribe of both channels through `this.subscriber`. -/
def handleMessage (rps : RedisPubSub) (channel : String) (message : String) :
    RedisPubSub × List Effect × Except JsError Unit :=
  if jsIncludes channel "-awareness" then
    match mapGet rps.docs (jsReplaceFirst channel "-awareness") with
    | none => (rps, [], .error .typeError)
    | some _pdoc =>
      (rps, [.applyAwareness (jsReplaceFirst channel "-awareness") message], .ok ())
  else
    match mapGet rps.docs channel with
    | some _pdoc => (rps, [.applyUpdate channel message], .ok ())
    | none =>
      match rps.subscriber with
      | none => (rps, [], .error .typeError)
      | some _ =>
        (rps, [.unsubscribe [channel, channel ++ "-awareness"]], .ok ())

/-- Embedding of `RedisInstance.destroy`: detach the document update
listener, delete the name from the owning registry, then unsubscribe both
channels through `this.rps.subscriber`. -/
def RedisInstance.destroy (inst : RedisInstance) (rps : RedisPubSub) :
    RedisPubSub × List Effect × Except JsError Unit :=
  let rps1 : RedisPubSub := { rps with docs := mapDelete rps.docs inst.name }
  match rps1.subscriber with
  | none => (rps1, [Effect.docOff inst.name], .error .typeError)
  | some _ =>
    (rps1, [Effect.docOff inst.name, Effect.unsubscribe [inst.name, inst.awarenessChannel]],
     .ok ())

/-- Sequencing of two possibly-failed results, keeping the first error
(the rejection surfaced by `Promise.all`). -/
def seqErr : Except JsError Unit → Except JsError Unit → Except JsError Unit
  | .ok _, r => r
  | .error e, _ => .error e

/-- One step of the drain performed by `RedisPubSub.destroy`: run one held
binding's `destroy()` against the current state, accumulating effects and
the first error. -/
def destroyStep (acc : RedisPubSub × List Effect × Except JsError Unit)
    (p : String × RedisInstance) : RedisPubSub × List Effect × Except JsError Unit :=
  match acc with
  | (s, es, r) =>
    match p.2.destroy s with
    | (s', es', r') => (s', es ++ es', seqErr r r')

/-- Embedding of `RedisPubSub.destroy`: swap `docs` for an empty map, run
every previously held binding's `destroy()` and await them all, then quit
the publisher and the subscriber and null both fields. -/
def RedisPubSub.destroy (rps : RedisPubSub) :
    RedisPubSub × List Effect × Except JsError Unit :=
  match rps.docs.foldl destroyStep ({ rps with docs := [] }, [], .ok ()) with
  | (rps2, effs, .error e) => (rps2, effs, .error e)
  | (rps2, effs, .ok _) =>
    match rps2.publisher with
    | none => (rps2, effs, .error .typeError)
    | some _ =>
      match rps2.subscriber with
      | none => (rps2, effs ++ [.quitPublisher], .error .typeError)
      | some _ =>
        ({ rps2 with publisher := none, subscriber := none },
         effs ++ [.quitPublisher, .quitSubscriber], .ok ())

/-- Embedding of `RedisPubSub.closeDoc`: destroy the named binding when
present, no-op when absent. -/
def closeDoc (rps : RedisPubSub) (name : String) :
    RedisPubSub × List Effect × Except JsError Unit :=
  match mapGet rps.docs name with
  | some doc => doc.destroy rps
  | none => (rps, [], .ok ())

/-- Result of the `createRedisInstance` factory: a cluster connection with
the given cluster options, or a single-node connection with the given
options (`none` embeds the zero-argument `new Redis()` default). -/
inductive RedisConn (O C : Type) where
  | cluster (opts : C)
  | single (opts : Option O)
deriving DecidableEq, Repr

/-- Embedding of `createRedisInstance`: cluster options (when non-null) take
precedence, else the single-endpoint options, else a default connection.
`Option` embeds JavaScript nullness of the two option objects. -/
def createRedisInstance {O C : Type} (redisOpts : Option O) (redisClusterOpts : Option C) :
    RedisConn O C :=
  match redisClusterOpts with
  | some c => .cluster c
  | none =>
    match redisOpts with
    | some o => .single (some o)
    | none => .single none

/-! The WebSocket session gateway (`YjsGateway`). -/

/-- Embedding of `YjsGateway.getCookie`: prepend `"; "` to the cookie header
(an absent header, `undefined`, is coerced to the string `"undefined"` by the
template literal) and return the first capture of `;\s*NAME=([^;]+)`, or the
empty string when there is no match. Total by construction: it never throws,
even on an absent header. -/
def getCookie (cookie : Option String) (n : String) : String :=
  match scanCookieL n.data
      ("; " ++ (match cookie with | some c => c | none => "undefined")).data with
  | some v => String.mk v
  | none => ""

/-- Observable actions of the gateway connection handler: closing the
connection with a status code, invoking `setupWSConnection` with a document
name, and logging a caught error. -/
inductive GatewayAction where
  | close (code : Nat)
  | setup (docName : String)
  | logError (err : String)
deriving DecidableEq, Repr

/-- The non-retry close code of `YjsGateway.authenticate`. -/
def ERROR_CODE_WEBSOCKET_AUTH_FAILED : Nat := 4000

/-- Lodash `isEmpty` restricted to the strings it is applied to here:
true exactly on the empty string (and on an empty verification result). -/
def isEmptyS (s : String) : Bool := s = ""

/-- Embedding of `YjsGateway.authenticate`. The external collaborators are
parameters: `verifyToken` returns the principal or `""` for an empty
(failed) verification, and `setupWSConnection` either succeeds or throws the
given error. The `Except` on the result captures an exception escaping the
handler; the try/catch around the attach step converts a thrown error into a
logged action, so the handler itself always returns `.ok`. -/
def authenticate (verifyToken : String → String)
    (setupWSConnection : String → Except String Unit)
    (cookieHeader : Option String) : Except String (List GatewayAction) :=
  let token := getCookie cookieHeader "auth_token"
  if isEmptyS token then .ok [.close ERROR_CODE_WEBSOCKET_AUTH_FAILED]
  else
    let signedJwt := verifyToken token
    if isEmptyS signedJwt then .ok [.close ERROR_CODE_WEBSOCKET_AUTH_FAILED]
    else
      let appId := getCookie cookieHeader "app_id"
      match setupWSConnection appId with
      | .ok _ => .ok [.setup appId]
      | .error e => .ok [.setup appId, .logError e]

/-! Specification-side description of a well-formed cookie header, used to
state that `getCookie` returns the named cookie's value when present. -/

/-- A cookie name is well formed when it is nonempty and its characters are
not `;`, `=`, or whitespace. -/
def GoodKey (k : String) : Prop :=
  k.data ≠ [] ∧ ∀ c ∈ k.data, c ≠ ';' ∧ c ≠ '=' ∧ isJsWs c = false

/-- A cookie value is well formed when it is nonempty and free of `;`. -/
def GoodValue (v : String) : Prop :=
  v.data ≠ [] ∧ ∀ c ∈ v.data, c ≠ ';'

/-- Every entry of the header is a well-formed name/value pair. -/
def GoodEntries (l : List (String × String)) : Prop :=
  ∀ e ∈ l, GoodKey e.1 ∧ GoodValue e.2

/-- Render a list of cookie entries as a standard `k=v; k=v` header. -/
def headerOfEntries : List (String × String) → String
  | [] => ""
  | [e] => e.1 ++ "=" ++ e.2
  | e :: rest => e.1 ++ "=" ++ e.2 ++ "; " ++ headerOfEntries rest

/-- First entry of the header with the given name, if any. -/
def lookupEntries : List (String × String) → String → Option String
  | [], _ => none
  | e :: rest, k => if e.1 = k then some e.2 else lookupEntries rest k

instance (k : String) : Decidable (GoodKey k) := by
  unfold GoodKey
  infer_instance

instance (v : String) : Decidable (GoodValue v) := by
  unfold GoodValue
  infer_instance

instance (l : List (String × String)) : Decidable (GoodEntries l) := by
  unfold GoodEntries
  infer_instance

/-! Concrete fixtures for witnesses and counterexamples. -/

/-- A document with one client entry in its store. -/
def doc0 : YDoc := { clientsSize := 1, state := [1, 2] }

/-- A document with an empty store. -/
def docEmpty : YDoc := { clientsSize := 0, state := [] }

/-- The binding that `bindState` creates for `doc0` under the name `doc-1`. -/
def inst0 : RedisInstance :=
  { name := "doc-1", awarenessChannel := "doc-1-awareness", doc := doc0 }

/-- A registry holding the single binding `inst0`, both connections live. -/
def rps0 : RedisPubSub :=
  { docs := [("doc-1", inst0)], publisher := some (), subscriber := some () }

/-- A registry with no bindings, both connections live. -/
def rpsEmpty : RedisPubSub :=
  { docs := [], publisher := some (), subscriber := some () }

/-- Claim C1: when a name is already present in the `docs` map, a second
`bindState` call with that name throws the duplicate-bind error
synchronously, performs no bus effect, and leaves the whole registry state
(in particular the first binding's entry) unchanged. -/
theorem bindState_duplicate_raises_and_preserves
    (rps : RedisPubSub) (name : String) (doc : YDoc)
    (h : mapHas rps.docs name = true) :
    bindState rps name doc = (rps, [], .error (.alreadyBound name)) := by
  simp [bindState, h]

/-- Witness for C1: binding `doc-1` a second time on `rps0` fails with the
duplicate-bind error and leaves the state untouched. -/
theorem bindState_duplicate_witness :
    mapHas rps0.docs "doc-1" = true ∧
    bindState rps0 "doc-1" docEmpty = (rps0, [], .error (.alreadyBound "doc-1")) :=
  ⟨by decide, bindState_duplicate_raises_and_preserves rps0 "doc-1" docEmpty (by decide)⟩

/-- Claim C2 (code bug): delivering an awareness-channel message whose base
name has no registered binding makes the handler dereference `undefined`
(`pdoc.doc`) and throw a `TypeError`, instead of the benign no-op the
specification requires. Evaluated at the failing input: channel
`doc-1-awareness` against an empty registry. -/
theorem handleMessage_awareness_missing_binding_throws :
    handleMessage rpsEmpty "doc-1-awareness" "1,2" = (rpsEmpty, [], .error .typeError) := by
  rfl

/-- Claim C3: a message on a document channel (no awareness suffix) with no
active binding makes the router unsubscribe that channel and its awareness
companion, create no binding, and raise no error. -/
theorem handleMessage_orphan_doc_channel (rps : RedisPubSub) (channel message : String)
    (hA : jsIncludes channel "-awareness" = false)
    (hN : mapGet rps.docs channel = none)
    (hS : rps.subscriber = some ()) :
    handleMessage rps channel message =
      (rps, [.unsubscribe [channel, channel ++ "-awareness"]], .ok ()) := by
  simp [handleMessage, hA, hN, hS]

/-- Witness for C3: a message on `doc-2` against an empty registry. -/
theorem handleMessage_orphan_witness :
    jsIncludes "doc-2" "-awareness" = false ∧
    mapGet rpsEmpty.docs "doc-2" = none ∧
    handleMessage rpsEmpty "doc-2" "0" =
      (rpsEmpty, [.unsubscribe ["doc-2", "doc-2" ++ "-awareness"]], .ok ()) :=
  ⟨by decide, by decide,
   handleMessage_orphan_doc_channel rpsEmpty "doc-2" "0" (by decide) (by decide) rfl⟩

/-- Claim C9: `createRedisInstance` prefers cluster options when both are
supplied, uses the single-endpoint options when only those are supplied, and
falls back to a default single-node connection with neither. -/
theorem createRedisInstance_mode_selection {O C : Type} (o : O) (c : C) :
    createRedisInstance (some o) (some c) = RedisConn.cluster c ∧
    createRedisInstance (some o) (none : Option C) = RedisConn.single (some o) ∧
    createRedisInstance (none : Option O) (none : Option C) = RedisConn.single none :=
  ⟨rfl, rfl, rfl⟩

/-- Claim C6: a connection whose handshake carries no `auth_token` cookie
value, or whose token fails verification (empty result), is closed with the
non-retry code 4000 and the document-sync handler is never invoked (the
action list is exactly the close, with no `setup` action). -/
theorem authenticate_rejects_unauthenticated (verifyToken : String → String)
    (setupWSConnection : String → Except String Unit) (cookieHeader : Option String)
    (h : getCookie cookieHeader "auth_token" = "" ∨
         verifyToken (getCookie cookieHeader "auth_token") = "") :
    authenticate verifyToken setupWSConnection cookieHeader =
      .ok [.close ERROR_CODE_WEBSOCKET_AUTH_FAILED] := by
  unfold authenticate
  rcases h with h | h
  · simp [isEmptyS, h]
  · by_cases ht : getCookie cookieHeader "auth_token" = ""
    · simp [isEmptyS, ht]
    · simp [isEmptyS, ht, h]

/-- Witness for C6: a handshake with no cookie header at all. -/
theorem authenticate_rejects_witness :
    getCookie none "auth_token" = "" ∧
    authenticate (fun _ => "principal") (fun _ => .ok ()) none =
      .ok [.close ERROR_CODE_WEBSOCKET_AUTH_FAILED] :=
  ⟨by decide,
   authenticate_rejects_unauthenticated (fun _ => "principal") (fun _ => .ok ()) none
     (Or.inl (by decide))⟩

/-- Claim C7: when authentication succeeds and the attach step throws, the
exception is caught and logged at the gateway boundary: the handler returns
normally with a logged action; moreover for every input whatsoever the
connection handler returns `.ok`, so no exception ever propagates out of it. -/
theorem authenticate_catches_attach_failure (verifyToken : String → String)
    (cookieHeader : Option String) (e : String)
    (hT : getCookie cookieHeader "auth_token" ≠ "")
    (hV : verifyToken (getCookie cookieHeader "auth_token") ≠ "") :
    authenticate verifyToken (fun _ => .error e) cookieHeader =
      .ok [.setup (getCookie cookieHeader "app_id"), .logError e] ∧
    ∀ (v : String → String) (s : String → Except String Unit) (ch : Option String),
      (authenticate v s ch).isOk = true := by
  constructor
  · simp [authenticate, isEmptyS, hT, hV]
  · intro v s ch
    unfold authenticate
    dsimp only
    split
    · rfl
    · split
      · rfl
      · split <;> rfl

/-- Witness for C7: a valid token with an attach step that throws. -/
theorem authenticate_catches_witness :
    getCookie (some "auth_token=tok") "auth_token" ≠ "" ∧
    authenticate (fun _ => "p") (fun _ => .error "boom") (some "auth_token=tok") =
      .ok [.setup "", .logError "boom"] :=
  ⟨by decide,
   (authenticate_catches_attach_failure (fun _ => "p") (some "auth_token=tok") "boom"
     (by decide) (by decide)).1⟩

/-- Claim C8: binding a fresh name whose document has a nonempty store
publishes the document's full encoded state first, before the listener
registration and channel subscriptions; binding a document with an empty
store performs no initial publish. -/
theorem bindState_initial_publish (rps : RedisPubSub) (name : String) (doc : YDoc)
    (hp : rps.publisher = some ()) (hs : rps.subscriber = some ())
    (hN : mapHas rps.docs name = false) :
    (doc.clientsSize > 0 →
      bindState rps name doc =
        ({ rps with docs := rps.docs ++ [(name, ⟨name, name ++ "-awareness", doc⟩)] },
         [.publish name (encodeStateAsUpdate doc), .docOn name,
          .subscribe [name, name ++ "-awareness"]],
         .ok ⟨name, name ++ "-awareness", doc⟩)) ∧
    (doc.clientsSize = 0 →
      bindState rps name doc =
        ({ rps with docs := rps.docs ++ [(name, ⟨name, name ++ "-awareness", doc⟩)] },
         [.docOn name, .subscribe [name, name ++ "-awareness"]],
         .ok ⟨name, name ++ "-awareness", doc⟩)) := by
  constructor <;> intro h <;>
    simp [bindState, hN, newRedisInstance, updateHandler, hp, hs, h, encodeStateAsUpdate]

/-- Witness for C8: binding `doc-1` with a one-client store publishes its
state first; binding `doc-2` with an empty store publishes nothing. -/
theorem bindState_initial_publish_witness :
    doc0.clientsSize > 0 ∧ docEmpty.clientsSize = 0 ∧
    bindState rpsEmpty "doc-1" doc0 =
      (rps0, [.publish "doc-1" [1, 2], .docOn "doc-1",
              .subscribe ["doc-1", "doc-1-awareness"]], .ok inst0) ∧
    bindState rpsEmpty "doc-2" docEmpty =
      ({ docs := [("doc-2", ⟨"doc-2", "doc-2-awareness", docEmpty⟩)],
         publisher := some (), subscriber := some () },
       [.docOn "doc-2", .subscribe ["doc-2", "doc-2-awareness"]],
       .ok ⟨"doc-2", "doc-2-awareness", docEmpty⟩) :=
  ⟨by decide, rfl,
   (bindState_initial_publish rpsEmpty "doc-1" doc0 rfl rfl (by decide)).1 (by decide),
   (bindState_initial_publish rpsEmpty "doc-2" docEmpty rfl rfl (by decide)).2 rfl⟩

/-- Teardown effects of the shutdown drain, one `docOff` and one
`unsubscribe` per previously held binding, in registry order. -/
def destroyTrace : List (String × RedisInstance) → List Effect
  | [] => []
  | p :: rest =>
    Effect.docOff p.2.name :: Effect.unsubscribe [p.2.name, p.2.awarenessChannel] ::
      destroyTrace rest

lemma seqErr_ok (r : Except JsError Unit) : seqErr r (.ok ()) = r := by
  cases r <;> rfl

lemma destroyStep_run (s : RedisPubSub) (es : List Effect) (r : Except JsError Unit)
    (p : String × RedisInstance) (hdocs : s.docs = []) (hs : s.subscriber = some ()) :
    destroyStep (s, es, r) p =
      (s, es ++ [Effect.docOff p.2.name,
                 Effect.unsubscribe [p.2.name, p.2.awarenessChannel]], r) := by
  obtain ⟨ds, pb, sb⟩ := s
  dsimp at hdocs hs
  subst hdocs
  subst hs
  simp [destroyStep, RedisInstance.destroy, mapDelete, seqErr_ok]

lemma destroy_fold (l : List (String × RedisInstance)) (s : RedisPubSub)
    (es : List Effect) (r : Except JsError Unit)
    (hdocs : s.docs = []) (hs : s.subscriber = some ()) :
    l.foldl destroyStep (s, es, r) = (s, es ++ destroyTrace l, r) := by
  induction l generalizing es with
  | nil => simp [destroyTrace]
  | cons p rest ih =>
    rw [List.foldl_cons, destroyStep_run s es r p hdocs hs, ih]
    simp [destroyTrace]

/-- Full characterization of `RedisPubSub.destroy` on a live registry: the
result state is empty with both connections nulled, and the effect trace is
every previously held binding's teardown followed by the two quits. -/
lemma destroy_run (rps : RedisPubSub) (hp : rps.publisher = some ())
    (hs : rps.subscriber = some ()) :
    RedisPubSub.destroy rps =
      ({ docs := [], publisher := none, subscriber := none },
       destroyTrace rps.docs ++ [Effect.quitPublisher, Effect.quitSubscriber], .ok ()) := by
  obtain ⟨ds, pb, sb⟩ := rps
  dsimp at hp hs
  subst hp
  subst hs
  unfold RedisPubSub.destroy
  rw [destroy_fold ds { docs := [], publisher := some (), subscriber := some () } []
        (.ok ()) rfl rfl]
  simp

/-- Claim C4: `destroy()` first swaps the `docs` map for an empty one, then
runs every previously held binding's `destroy()` (its listener detachment
and channel unsubscription all appear in the trace before the connection
teardown), and only then quits the publisher and the subscriber; afterwards
the registry is empty and both connections are nulled. The trace equality
places the two quit effects strictly after every binding teardown effect. -/
theorem destroy_drains_then_quits (rps : RedisPubSub)
    (hp : rps.publisher = some ()) (hs : rps.subscriber = some ()) :
    RedisPubSub.destroy rps =
      ({ docs := [], publisher := none, subscriber := none },
       destroyTrace rps.docs ++ [Effect.quitPublisher, Effect.quitSubscriber], .ok ()) ∧
    (RedisPubSub.destroy rps).1.docs = [] :=
  ⟨destroy_run rps hp hs, by rw [destroy_run rps hp hs]⟩

/-- Witness for C4: shutting down a registry holding one binding. -/
theorem destroy_drains_witness :
    RedisPubSub.destroy rps0 =
      ({ docs := [], publisher := none, subscriber := none },
       [Effect.docOff "doc-1", Effect.unsubscribe ["doc-1", "doc-1-awareness"],
        Effect.quitPublisher, Effect.quitSubscriber], .ok ()) :=
  (destroy_drains_then_quits rps0 rfl rfl).1

/-- Claim C5, counterexample: after `destroy()` completes, a binding's
`updateHandler` firing does not fail quietly — it throws a `TypeError`
(the handler dereferences the nulled `publisher` with no surrounding
try/catch), refuting the claim that a post-destroy publish attempt never
throws an unhandled exception. -/
theorem publish_after_destroy_counterexample :
    updateHandler (RedisPubSub.destroy rps0).1 inst0 [1] = .error .typeError := by
  rfl

/-- Claim C5, amended: after `destroy()` of a live registry completes, any
publish attempt through a binding's `updateHandler` or
`updateAwarenessHandler` throws a `TypeError` at the dereference of the
nulled publisher connection, and no publish effect reaches the bus. -/
theorem publish_after_destroy_throws (rps : RedisPubSub) (inst : RedisInstance)
    (u : List Nat) (hp : rps.publisher = some ()) (hs : rps.subscriber = some ()) :
    updateHandler (RedisPubSub.destroy rps).1 inst u = .error .typeError ∧
    updateAwarenessHandler (RedisPubSub.destroy rps).1 inst u = .error .typeError := by
  rw [destroy_run rps hp hs]
  exact ⟨rfl, rfl⟩

/-- Witness for the amended C5. -/
theorem publish_after_destroy_witness :
    updateHandler (RedisPubSub.destroy rps0).1 inst0 [1, 2] = .error .typeError ∧
    updateAwarenessHandler (RedisPubSub.destroy rps0).1 inst0 [1, 2] = .error .typeError :=
  publish_after_destroy_throws rps0 inst0 [1, 2] rfl rfl

/-! String helpers and correctness of the cookie scanner. -/

lemma data_append (a b : String) : (a ++ b).data = a.data ++ b.data := by
  cases a
  cases b
  rfl

lemma eq_of_data_eq (a b : String) (h : a.data = b.data) : a = b := by
  cases a
  cases b
  exact congrArg String.mk h

lemma mk_data (v : String) : String.mk v.data = v := by
  cases v
  rfl

lemma matchKeyEq_nil (key : List Char) : matchKeyEq key [] = none := by
  cases key <;> rfl

lemma matchKeyEq_no_eq (key : List Char) : ∀ s : List Char,
    (∀ c ∈ s, c ≠ '=') → matchKeyEq key s = none := by
  induction key with
  | nil =>
    intro s h
    cases s with
    | nil => rfl
    | cons c cs =>
      have hc : c ≠ '=' := h c (by simp)
      simp [matchKeyEq, hc]
  | cons k ks ih =>
    intro s h
    cases s with
    | nil => rfl
    | cons c cs =>
      by_cases hc : c = k
      · simp [matchKeyEq, hc, ih cs (fun d hd => h d (by simp [hd]))]
      · simp [matchKeyEq, hc]

lemma matchWsKey_no_eq (key : List Char) : ∀ s : List Char,
    (∀ c ∈ s, c ≠ '=') → matchWsKey key s = none := by
  intro s
  induction s with
  | nil => intro _; simp [matchWsKey, matchKeyEq_nil]
  | cons c cs ih =>
    intro h
    have h1 : ∀ d ∈ cs, d ≠ '=' := fun d hd => h d (by simp [hd])
    by_cases hw : isJsWs c
    · simp [matchWsKey, hw, ih h1, matchKeyEq_no_eq key (c :: cs) h]
    · simp [matchWsKey, hw, matchKeyEq_no_eq key (c :: cs) h]

lemma scanCookieL_no_eq (key : List Char) : ∀ s : List Char,
    (∀ c ∈ s, c ≠ '=') → scanCookieL key s = none := by
  intro s
  induction s with
  | nil => intro _; rfl
  | cons c cs ih =>
    intro h
    have h1 : ∀ d ∈ cs, d ≠ '=' := fun d hd => h d (by simp [hd])
    by_cases hc : c = ';'
    · simp [scanCookieL, hc, matchWsKey_no_eq key cs h1, ih h1]
    · simp [scanCookieL, hc, ih h1]

lemma getCookie_absent (n : String) : getCookie none n = "" := by
  unfold getCookie
  rw [scanCookieL_no_eq n.data ("; " ++ "undefined").data (by decide)]

/-- Character-list rendering of `"; " ++ headerOfEntries l`, block by block. -/
def blocksOf : List (String × String) → List Char
  | [] => []
  | e :: rest => ';' :: ' ' :: (e.1.data ++ '=' :: (e.2.data ++ blocksOf rest))

lemma headerOfEntries_data : ∀ l : List (String × String), l ≠ [] →
    ("; " ++ headerOfEntries l).data = blocksOf l := by
  intro l
  induction l with
  | nil => intro h; cases h rfl
  | cons e rest ih =>
    intro _
    cases rest with
    | nil =>
      show ("; " ++ (e.1 ++ "=" ++ e.2)).data = _
      simp [blocksOf, data_append]
    | cons f rs =>
      have h2 : ("; " : String).data = [';', ' '] := rfl
      have h3 : ("=" : String).data = ['='] := rfl
      have ihr := ih (by simp)
      rw [data_append, h2] at ihr
      have ihr2 : (headerOfEntries (f :: rs)).data
          = f.1.data ++ '=' :: (f.2.data ++ blocksOf rs) := by
        simpa [blocksOf] using ihr
      show ("; " ++ (e.1 ++ "=" ++ e.2 ++ "; " ++ headerOfEntries (f :: rs))).data = _
      simp [blocksOf, data_append, h2, h3, ihr2]

lemma captureVal_append (v r : List Char) (hv : ∀ c ∈ v, c ≠ ';')
    (hr : r = [] ∨ ∃ t, r = ';' :: t) :
    captureVal (v ++ r) = v := by
  induction v with
  | nil =>
    rcases hr with h | ⟨t, h⟩ <;> subst h <;> simp [captureVal]
  | cons c cs ih =>
    have hc : c ≠ ';' := hv c (by simp)
    simp [captureVal, hc, ih (fun d hd => hv d (by simp [hd]))]

lemma blocksOf_shape (l : List (String × String)) :
    blocksOf l = [] ∨ ∃ t, blocksOf l = ';' :: t := by
  cases l with
  | nil => exact Or.inl rfl
  | cons e rest => exact Or.inr ⟨_, rfl⟩

lemma matchKeyEq_self (key tail : List Char) :
    matchKeyEq key (key ++ '=' :: tail) =
      (if (captureVal tail).isEmpty then none else some (captureVal tail)) := by
  induction key with
  | nil => simp [matchKeyEq]
  | cons k ks ih => simp [matchKeyEq, ih]

lemma matchKeyEq_mismatch (key : List Char) : ∀ j tail : List Char, j ≠ key →
    (∀ c ∈ key, c ≠ '=') → (∀ c ∈ j, c ≠ '=') →
    matchKeyEq key (j ++ '=' :: tail) = none := by
  induction key with
  | nil =>
    intro j tail hne _ hj
    cases j with
    | nil => cases hne rfl
    | cons c cs =>
      have hc : c ≠ '=' := hj c (by simp)
      simp [matchKeyEq, hc]
  | cons k ks ih =>
    intro j tail hne hkey hj
    cases j with
    | nil =>
      have hk : k ≠ '=' := hkey k (by simp)
      simp [matchKeyEq, Ne.symm hk]
    | cons c cs =>
      by_cases hc : c = k
      · subst hc
        have hne2 : cs ≠ ks := fun h => hne (by rw [h])
        simp [matchKeyEq,
          ih cs tail hne2 (fun d hd => hkey d (by simp [hd]))
            (fun d hd => hj d (by simp [hd]))]
      · simp [matchKeyEq, hc]

lemma matchWsKey_space (key s : List Char)
    (hk : ∃ a ks, key = a :: ks ∧ isJsWs a = false)
    (hs : ∃ b t, s = b :: t ∧ isJsWs b = false) :
    matchWsKey key (' ' :: s) = matchKeyEq key s := by
  obtain ⟨a, ks, hk1, hk2⟩ := hk
  obtain ⟨b, t, hs1, hs2⟩ := hs
  subst hk1
  subst hs1
  have hsp : isJsWs ' ' = true := rfl
  have hinner : matchWsKey (a :: ks) (b :: t) = matchKeyEq (a :: ks) (b :: t) := by
    simp [matchWsKey, hs2]
  have hfall : matchKeyEq (a :: ks) (' ' :: b :: t) = none := by
    have hne : ' ' ≠ a := by
      intro e
      cases e
      exact absurd hk2 (by decide)
    simp [matchKeyEq, hne]
  show (match matchWsKey (a :: ks) (b :: t) with
        | some v => some v
        | none => matchKeyEq (a :: ks) (' ' :: b :: t)) = matchKeyEq (a :: ks) (b :: t)
  rw [hinner]
  cases h : matchKeyEq (a :: ks) (b :: t) with
  | some v => rfl
  | none => exact hfall

lemma scanCookieL_skip (key : List Char) : ∀ s r : List Char,
    (∀ c ∈ s, c ≠ ';') → scanCookieL key (s ++ r) = scanCookieL key r := by
  intro s
  induction s with
  | nil => intro r _; rfl
  | cons c cs ih =>
    intro r h
    have hc : c ≠ ';' := h c (by simp)
    simp [scanCookieL, hc, ih r (fun d hd => h d (by simp [hd]))]

lemma scanCookieL_blocks (key : String) (hkey : GoodKey key) :
    ∀ l : List (String × String), GoodEntries l →
      scanCookieL key.data (blocksOf l) = (lookupEntries l key).map String.data := by
  obtain ⟨hk1, hk2⟩ := hkey
  intro l
  induction l with
  | nil => intro _; rfl
  | cons e rest ih =>
    intro hgood
    obtain ⟨⟨hj1, hj2⟩, hv1, hv2⟩ := hgood e (by simp)
    have hrest : GoodEntries rest := fun f hf => hgood f (by simp [hf])
    obtain ⟨a, ks, hks⟩ : ∃ a ks, key.data = a :: ks := by
      cases hkd : key.data with
      | nil => exact absurd hkd hk1
      | cons a ks => exact ⟨a, ks, rfl⟩
    obtain ⟨b, js, hjs⟩ : ∃ b js, e.1.data = b :: js := by
      cases hjd : e.1.data with
      | nil => exact absurd hjd hj1
      | cons b js => exact ⟨b, js, rfl⟩
    have hmw : matchWsKey key.data (' ' :: (e.1.data ++ '=' :: (e.2.data ++ blocksOf rest)))
        = matchKeyEq key.data (e.1.data ++ '=' :: (e.2.data ++ blocksOf rest)) := by
      apply matchWsKey_space
      · exact ⟨a, ks, hks, (hk2 a (by rw [hks]; simp)).2.2⟩
      · refine ⟨b, js ++ '=' :: (e.2.data ++ blocksOf rest), ?_,
          (hj2 b (by rw [hjs]; simp)).2.2⟩
        rw [hjs]
        simp
    by_cases heq : e.1 = key
    · have hself : matchKeyEq key.data (e.1.data ++ '=' :: (e.2.data ++ blocksOf rest))
          = some e.2.data := by
        rw [heq, matchKeyEq_self,
          captureVal_append e.2.data (blocksOf rest) hv2 (blocksOf_shape rest)]
        obtain ⟨x, xs, hxd⟩ : ∃ x xs, e.2.data = x :: xs := by
          cases hvd : e.2.data with
          | nil => exact absurd hvd hv1
          | cons x xs => exact ⟨x, xs, rfl⟩
        rw [hxd]
        rfl
      show (match matchWsKey key.data (' ' :: (e.1.data ++ '=' :: (e.2.data ++ blocksOf rest))) with
            | some v => some v
            | none => scanCookieL key.data
                (' ' :: (e.1.data ++ '=' :: (e.2.data ++ blocksOf rest)))) = _
      rw [hmw, hself]
      simp [lookupEntries, heq]
    · have hdne : e.1.data ≠ key.data := fun h => heq (eq_of_data_eq e.1 key h)
      have hmis : matchKeyEq key.data (e.1.data ++ '=' :: (e.2.data ++ blocksOf rest))
          = none :=
        matchKeyEq_mismatch key.data e.1.data (e.2.data ++ blocksOf rest) hdne
          (fun d hd => (hk2 d hd).2.1) (fun d hd => (hj2 d hd).2.1)
      have hnosemi : ∀ c ∈ (' ' :: e.1.data) ++ '=' :: e.2.data, c ≠ ';' := by
        intro c hc
        rcases List.mem_append.1 hc with hc | hc
        · rcases List.mem_cons.1 hc with rfl | hc
          · decide
          · exact (hj2 c hc).1
        · rcases List.mem_cons.1 hc with rfl | hc
          · decide
          · exact hv2 c hc
      have hre : ' ' :: (e.1.data ++ '=' :: (e.2.data ++ blocksOf rest))
          = ((' ' :: e.1.data) ++ '=' :: e.2.data) ++ blocksOf rest := by
        simp
      show (match matchWsKey key.data (' ' :: (e.1.data ++ '=' :: (e.2.data ++ blocksOf rest))) with
            | some v => some v
            | none => scanCookieL key.data
                (' ' :: (e.1.data ++ '=' :: (e.2.data ++ blocksOf rest)))) = _
      rw [hmw, hmis]
      show scanCookieL key.data
          (' ' :: (e.1.data ++ '=' :: (e.2.data ++ blocksOf rest))) = _
      rw [hre, scanCookieL_skip key.data _ (blocksOf rest) hnosemi, ih hrest]
      simp [lookupEntries, heq]

/-- Claim C10: `getCookie` is total (embedded as a total function of the
optional header): on an absent (`undefined`) cookie header it returns the
empty string for every cookie name; on a well-formed header it returns the
first entry with the requested name; and consequently a connection with no
cookie header at all is closed with the auth-failure code 4000 rather than
crashing the gateway. -/
theorem getCookie_total_and_correct :
    (∀ n : String, getCookie none n = "") ∧
    (∀ (l : List (String × String)) (key v : String), GoodKey key → GoodEntries l →
      lookupEntries l key = some v → getCookie (some (headerOfEntries l)) key = v) ∧
    (∀ (verifyToken : String → String) (setupWSConnection : String → Except String Unit),
      authenticate verifyToken setupWSConnection none =
        .ok [.close ERROR_CODE_WEBSOCKET_AUTH_FAILED]) := by
  refine ⟨getCookie_absent, ?_, ?_⟩
  · intro l key v hkey hgood hlook
    have hne : l ≠ [] := by
      intro h
      subst h
      simp [lookupEntries] at hlook
    unfold getCookie
    rw [headerOfEntries_data l hne, scanCookieL_blocks key hkey l hgood, hlook]
    exact mk_data v
  · intro verifyToken setupWSConnection
    rfl

/-- Witness for C10: an absent header yields the empty string and a 4000
close; a concrete two-entry header yields the value of `auth_token`. -/
theorem getCookie_witness :
    getCookie none "auth_token" = "" ∧
    getCookie (some (headerOfEntries [("a", "1"), ("auth_token", "tok")])) "auth_token"
      = "tok" ∧
    authenticate (fun _ => "p") (fun _ => .ok ()) none =
      .ok [.close ERROR_CODE_WEBSOCKET_AUTH_FAILED] :=
  ⟨getCookie_total_and_correct.1 "auth_token",
   getCookie_total_and_correct.2.1 [("a", "1"), ("auth_token", "tok")] "auth_token" "tok"
     (by decide) (by decide) (by decide),
   getCookie_total_and_correct.2.2 (fun _ => "p") (fun _ => .ok ())⟩

end ToolJet
